import Mathlib

/-!
Verification of the school-distance application's data ingestion and
distance-ranking pipeline.

The development shallowly embeds the TypeScript sources:
  * `src/utils/csvParser.ts` (`parseCSV`, `parseCSVLine`, `csvRowsToSchools`)
  * `src/utils/distance.ts` (`calculateDistance`)
  * `src/App.tsx` (`calculateDistances`, `applyFilters`)

JavaScript strings are modelled as Lean `String`, JavaScript objects built
from CSV headers as association lists (`CSVRow`), and JavaScript numbers
produced by `parseFloat` as `JsNum` (NaN, the two infinities, or an exact
rational — every decimal literal is represented exactly, which is faithful
for the short literals exercised here).  Real-valued trigonometry in the
distance engine is modelled over `ℝ`.
-/

/-- The apostrophe character, written via its code point. -/
def squoteChar : Char := Char.ofNat 39

/-- The double-quote character, written via its code point. -/
def dquoteChar : Char := Char.ofNat 34

/-- Characters removed by JavaScript `String.prototype.trim` (restricted to
the ASCII whitespace actually occurring in the data). -/
def jsIsWS (c : Char) : Bool :=
  c = ' ' || c = '\t' || c = '\n' || c = '\r' || c = Char.ofNat 11 || c = Char.ofNat 12

/-- JavaScript `s.trim()`: drop leading and trailing whitespace. -/
def jsTrim (s : String) : String :=
  String.mk (((s.data.dropWhile jsIsWS).reverse.dropWhile jsIsWS).reverse)

/-- JavaScript `s.replace(/['"]/g, '')`: delete every single- and
double-quote character. -/
def stripQuotes (s : String) : String :=
  String.mk (s.data.filter (fun c => !(c = squoteChar || c = dquoteChar)))

/-- JavaScript `s.split(sep)` for a one-character separator: split into the
(possibly empty) chunks between occurrences of `sep`. -/
def splitOnChar (sep : Char) (s : String) : List String :=
  let step := fun (st : List String × List Char) (c : Char) =>
    if c = sep then (st.1 ++ [String.mk st.2], [])
    else (st.1, st.2 ++ [c])
  let fin := s.data.foldl step ([], [])
  fin.1 ++ [String.mk fin.2]

/-- The result of JavaScript `parseFloat`: NaN, an infinity, or a finite
value (represented exactly as a rational). -/
inductive JsNum where
  | nan : JsNum
  | posInf : JsNum
  | negInf : JsNum
  | fin : ℚ → JsNum
deriving DecidableEq, Repr

/-- JavaScript `isNaN` on a `parseFloat` result. -/
def JsNum.isNaN : JsNum → Bool
  | .nan => true
  | _ => false

/-- Numeric value of a digit string (most significant first). -/
def digitsToNat (ds : List Char) : Nat :=
  ds.foldl (fun acc c => 10 * acc + (c.toNat - 48)) 0

/-- Parse the longest unsigned decimal-literal prefix
(`DecimalDigits [. DecimalDigits] [ExponentPart]` or `. DecimalDigits
[ExponentPart]`) and return its exact value as a pair
numerator/denominator; `none` when no valid prefix exists.  An `e`/`E` not
followed by digits is not consumed (JavaScript keeps the shorter valid
prefix, so its value is ignored). -/
def parseUnsignedDecimal (cs : List Char) : Option (Int × Nat) :=
  let intDigits := cs.takeWhile Char.isDigit
  let rest1 := cs.drop intDigits.length
  let fracDigits :=
    match rest1 with
    | '.' :: t => t.takeWhile Char.isDigit
    | _ => []
  let rest2 :=
    match rest1 with
    | '.' :: t => t.drop fracDigits.length
    | _ => rest1
  if intDigits.isEmpty && fracDigits.isEmpty then none
  else
    let n0 : Int := (digitsToNat intDigits * 10 ^ fracDigits.length + digitsToNat fracDigits : Nat)
    let d0 : Nat := 10 ^ fracDigits.length
    let exponent : Option Int :=
      match rest2 with
      | e :: t =>
        if e = 'e' || e = 'E' then
          match t with
          | '+' :: t2 =>
            let ds := t2.takeWhile Char.isDigit
            if ds.isEmpty then none else some (digitsToNat ds : Int)
          | '-' :: t2 =>
            let ds := t2.takeWhile Char.isDigit
            if ds.isEmpty then none else some (-(digitsToNat ds : Int))
          | _ =>
            let ds := t.takeWhile Char.isDigit
            if ds.isEmpty then none else some (digitsToNat ds : Int)
        else none
      | [] => none
    match exponent with
    | some e =>
      if 0 ≤ e then some (n0 * 10 ^ e.toNat, d0) else some (n0, d0 * 10 ^ (-e).toNat)
    | none => some (n0, d0)

/-- JavaScript `parseFloat`: skip leading whitespace, take an optional
sign, recognise the `Infinity` literal, otherwise parse a decimal literal
prefix; `NaN` when nothing parses.  The exact rational value of the
literal is `mkRat n d`. -/
def jsParseFloat (s : String) : JsNum :=
  let cs := s.data.dropWhile jsIsWS
  let signAndRest : Bool × List Char :=
    match cs with
    | '-' :: t => (true, t)
    | '+' :: t => (false, t)
    | _ => (false, cs)
  let neg := signAndRest.1
  let cs2 := signAndRest.2
  if ("Infinity".data).isPrefixOf cs2 then
    if neg then .negInf else .posInf
  else
    match parseUnsignedDecimal cs2 with
    | none => .nan
    | some nd => .fin (mkRat (if neg then -nd.1 else nd.1) nd.2)

/-- A parsed CSV row: the JavaScript object built by assigning
`row[header] = value` in header order.  Modelled as an association list in
assignment order; lookup takes the last binding, matching JavaScript's
overwrite semantics for duplicate headers. -/
abbrev CSVRow : Type := List (String × String)

/-- `row[key]`: `some` value of the last assignment to `key`, `none` when
the key is absent (JavaScript `undefined`). -/
def CSVRow.get (row : CSVRow) (key : String) : Option String :=
  ((List.reverse row).find? (fun p => p.1 = key)).map (fun p => p.2)

/-- `row[key]` with a default, used only where presence is already known. -/
def CSVRow.getD (row : CSVRow) (key : String) (d : String) : String :=
  (row.get key).getD d

/-- JavaScript `key in row`. -/
def CSVRow.hasKey (row : CSVRow) (key : String) : Bool :=
  (row.get key).isSome

/-- JavaScript truthiness of `row[key]`-style values: `undefined` and the
empty string are falsy, every other string is truthy. -/
def truthy : Option String → Bool
  | none => false
  | some s => s ≠ ""

/-- `parseCSVLine(line, separator)` from `csvParser.ts`: scan the
characters, toggling `inQuotes` at every double quote; a separator outside
quotes closes the current field, every other character is appended to it. -/
def parseCSVLine (line : String) (separator : Char) : List String :=
  let step := fun (st : List String × List Char × Bool) (c : Char) =>
    if c = dquoteChar then (st.1, st.2.1, !st.2.2)
    else if c = separator && !st.2.2 then (st.1 ++ [String.mk st.2.1], [], st.2.2)
    else (st.1, st.2.1 ++ [c], st.2.2)
  let fin := line.data.foldl step ([], [], false)
  fin.1 ++ [String.mk fin.2.1]

/-- `parseCSV(csvText)` from `csvParser.ts`: trim the text, split into
physical lines, read headers from the first line (trimmed, quotes
stripped), then turn each remaining line into a row object when its parsed
field count equals the header count (the loop pushing matching rows is
rendered as `filterMap`). -/
def parseCSV (csvText : String) : List CSVRow :=
  let lines := splitOnChar '\n' (jsTrim csvText)
  if lines.length < 2 then []
  else
    let headers := (splitOnChar ';' (lines.headD "")).map (fun h => stripQuotes (jsTrim h))
    (lines.drop 1).filterMap (fun line =>
      let values := parseCSVLine line ';'
      if values.length = headers.length then
        some ((headers.zip (values.map (fun v => stripQuotes (jsTrim v)))) : CSVRow)
      else none)

/-- The `School` record from `types.ts`, polymorphic in the numeric type
(`JsNum` for the parsing pipeline, `ℝ` for the distance pipeline).  The
TypeScript interface declares `name: string` as required, but the Scheme B
object literal in `csvRowsToSchools` omits it, so at runtime `name` can be
`undefined`; it is therefore modelled as `Option String`. -/
structure School (α : Type) where
  id : Nat
  name : Option String
  uai : Option String
  address : Option String
  latitude : α
  longitude : α
  type : Option String
  distance : Option α
deriving DecidableEq, Repr

/-- Scheme B name candidates (`genericNameKeys` in `csvRowsToSchools`). -/
def genericNameKeys : List String :=
  ["name", "nom", "Name", "Nom", "NAME", "NOM", "etablissement", "ecole", "school"]

/-- Scheme B latitude candidates (`genericLatKeys`). -/
def genericLatKeys : List String :=
  ["latitude", "lat", "Latitude", "Lat", "LATITUDE", "LAT"]

/-- Scheme B longitude candidates (`genericLonKeys`). -/
def genericLonKeys : List String :=
  ["longitude", "lon", "lng", "Longitude", "Lon", "Lng", "LONGITUDE", "LON", "LNG"]

/-- Scheme B address candidates (`genericAddressKeys`). -/
def genericAddressKeys : List String :=
  ["address", "adresse", "Address", "Adresse", "ADDRESS", "ADRESSE"]

/-- Scheme B type candidates (`genericTypeKeys`). -/
def genericTypeKeys : List String :=
  ["type", "Type", "TYPE", "category", "Category", "CATEGORY"]

/-- The body of the `map` callback in `csvRowsToSchools`: normalise one row
at input position `index`, returning `none` where the source returns
`null`.

In the generic fallback branch the source's object literal repeats the key
`uai` four times (`row[uaiKey]`, `row[uaiKey] || addressValue`,
`addressValue`, `row[uaiKey]`); JavaScript keeps the last duplicate, so the
field is `row[uaiKey]`.  That literal also omits `name` (hence
`name := none`), while the Scheme A literal has no `uai` property (hence
`uai := none`). -/
def rowToSchool (row : CSVRow) (index : Nat) : Option (School JsNum) :=
  if ¬ truthy (CSVRow.get row "appellation_officielle") ∨ ¬ truthy (CSVRow.get row "position") then
    let latKey := genericLatKeys.find? (CSVRow.hasKey row)
    let lonKey := genericLonKeys.find? (CSVRow.hasKey row)
    let nameKeyGeneric := genericNameKeys.find? (CSVRow.hasKey row)
    let addressKey := genericAddressKeys.find? (CSVRow.hasKey row)
    let typeKey := genericTypeKeys.find? (CSVRow.hasKey row)
    if latKey.isNone || lonKey.isNone || nameKeyGeneric.isNone then none
    else
      let latitude := jsParseFloat (CSVRow.getD row (latKey.getD "") "")
      let longitude := jsParseFloat (CSVRow.getD row (lonKey.getD "") "")
      if latitude.isNaN || longitude.isNaN then none
      else some {
        id := index
        name := none
        uai := CSVRow.get row "uai"
        address := match addressKey with | some k => CSVRow.get row k | none => none
        latitude := latitude
        longitude := longitude
        type := match typeKey with | some k => CSVRow.get row k | none => none
        distance := none }
  else
    match splitOnChar ',' (CSVRow.getD row "position" "") with
    | [p0, p1] =>
      let latitude := jsParseFloat (jsTrim p0)
      let longitude := jsParseFloat (jsTrim p1)
      if latitude.isNaN || longitude.isNaN then none
      else
        let addressParts :=
          (if truthy (CSVRow.get row "libelle_commune") then [CSVRow.getD row "libelle_commune" ""] else [])
            ++ (if truthy (CSVRow.get row "libelle_departement") then [CSVRow.getD row "libelle_departement" ""] else [])
        let address :=
          if addressParts.length > 0 then some (String.intercalate ", " addressParts) else none
        let type0 := if truthy (CSVRow.get row "secteur") then CSVRow.getD row "secteur" "" else "Établissement"
        let type1 :=
          if truthy (CSVRow.get row "ips") then type0 ++ " (IPS: " ++ CSVRow.getD row "ips" "" ++ ")" else type0
        some {
          id := index
          name := CSVRow.get row "appellation_officielle"
          uai := none
          address := address
          latitude := latitude
          longitude := longitude
          type := some type1
          distance := none }
    | _ => none

/-- `csvRowsToSchools(rows)`: map each row through the normaliser with its
input index, then drop the `null` results (the source's
`.map(...).filter(school => school !== null)`). -/
def csvRowsToSchools (rows : List CSVRow) : List (School JsNum) :=
  ((rows.enum).map (fun p => rowToSchool p.2 p.1)).reduceOption

/-- `toRadians(degrees)` from `distance.ts`, over the real numbers. -/
noncomputable def toRadians (degrees : ℝ) : ℝ :=
  degrees * (Real.pi / 180)

/-- JavaScript `Math.atan2(y, x)` over the real numbers (IEEE signed
zeros collapse to the single real zero). -/
noncomputable def jsAtan2 (y x : ℝ) : ℝ :=
  if 0 < x then Real.arctan (y / x)
  else if x < 0 then
    (if 0 ≤ y then Real.arctan (y / x) + Real.pi else Real.arctan (y / x) - Real.pi)
  else
    (if 0 < y then Real.pi / 2 else if y < 0 then -(Real.pi / 2) else 0)

/-- `parseFloat(d.toFixed(2))`: round to two decimal places.  `toFixed`
rounds to the nearest hundredth, ties towards the larger value. -/
noncomputable def toFixed2Round (x : ℝ) : ℝ :=
  ((⌊x * 100 + 1 / 2⌋ : ℤ) : ℝ) / 100

/-- `calculateDistance(lat1, lon1, lat2, lon2)` from `distance.ts`:
haversine distance with Earth radius 6371 km, rounded to two decimals. -/
noncomputable def calculateDistance (lat1 lon1 lat2 lon2 : ℝ) : ℝ :=
  let R : ℝ := 6371
  let dLat := toRadians (lat2 - lat1)
  let dLon := toRadians (lon2 - lon1)
  let a :=
    Real.sin (dLat / 2) * Real.sin (dLat / 2) +
      Real.cos (toRadians lat1) * Real.cos (toRadians lat2) *
        Real.sin (dLon / 2) * Real.sin (dLon / 2)
  let c := 2 * jsAtan2 (Real.sqrt a) (Real.sqrt (1 - a))
  let distance := R * c
  toFixed2Round distance

/-- The `Position` record from `types.ts`. -/
structure Position where
  latitude : ℝ
  longitude : ℝ
  address : Option String := none

/-- `school.distance || 0` as used by the sort comparator in `App.tsx`. -/
noncomputable def dist0 (s : School ℝ) : ℝ :=
  s.distance.getD 0

/-- The sort comparator `(a, b) => (a.distance || 0) - (b.distance || 0)`
of `App.tsx`, as the ordering it induces: `a` sorts no later than `b` iff
the comparator is non-positive, i.e. `dist0 a ≤ dist0 b`. -/
noncomputable def jsSortLE (a b : School ℝ) : Bool :=
  decide (dist0 a ≤ dist0 b)

/-- `calculateDistances(schoolList, position)` from `App.tsx`: annotate
every school with its distance from `position`, then sort ascending by
distance.  `Array.prototype.sort` is a stable sort (ECMAScript 2019), so it
is modelled by `List.mergeSort`. -/
noncomputable def calculateDistances (schoolList : List (School ℝ)) (position : Position) :
    List (School ℝ) :=
  let schoolsWithDistances := schoolList.map (fun school =>
    { school with
      distance := some (calculateDistance position.latitude position.longitude
        school.latitude school.longitude) })
  schoolsWithDistances.mergeSort jsSortLE

/-- The sector filter setting of `App.tsx` (`'all' | 'public' | 'private'`). -/
inductive SectorFilter where
  | all : SectorFilter
  | pub : SectorFilter
  | priv : SectorFilter
deriving DecidableEq

/-- The level filter setting of `App.tsx` (`'all' | 'college' | 'lycee'`). -/
inductive LevelFilter where
  | all : LevelFilter
  | college : LevelFilter
  | lycee : LevelFilter
deriving DecidableEq

/-- One lowering step of JavaScript `toLowerCase`, restricted to ASCII and
the Latin-1 uppercase letters (the only characters relevant to the filter
tokens `collège`, `lycée`, `public`, `privé`). -/
def jsCharToLower (c : Char) : Char :=
  if 65 ≤ c.toNat ∧ c.toNat ≤ 90 then Char.ofNat (c.toNat + 32)
  else if 192 ≤ c.toNat ∧ c.toNat ≤ 222 ∧ c.toNat ≠ 215 then Char.ofNat (c.toNat + 32)
  else c

/-- JavaScript `s.toLowerCase()` (restricted as in `jsCharToLower`). -/
def jsToLower (s : String) : String :=
  String.mk (s.data.map jsCharToLower)

/-- Whether `needle` occurs as a contiguous run inside the list. -/
def hasSub (needle : List Char) : List Char → Bool
  | [] => needle.isEmpty
  | c :: t => needle.isPrefixOf (c :: t) || hasSub needle t

/-- JavaScript `s.includes(sub)`. -/
def jsIncludes (s sub : String) : Bool :=
  hasSub sub.data s.data

/-- `applyFilters(schoolList, sector, level)` from `App.tsx` (without the
trailing `setFilteredSchools` state write): the level predicate is applied
first, the sector predicate second, each only when the setting is not
`all`. -/
def applyFilters (schoolList : List (School ℝ)) (sector : SectorFilter) (level : LevelFilter) :
    List (School ℝ) :=
  let filtered0 := schoolList
  let filtered1 :=
    if level != LevelFilter.all then
      filtered0.filter (fun school =>
        if ¬ truthy school.name then false
        else
          let schoolName := jsToLower (school.name.getD "")
          if level = LevelFilter.college then
            jsIncludes schoolName "collège" || jsIncludes schoolName "college"
          else if level = LevelFilter.lycee then
            jsIncludes schoolName "lycée" || jsIncludes schoolName "lycee"
          else true)
    else filtered0
  let filtered2 :=
    if sector != SectorFilter.all then
      filtered1.filter (fun school =>
        if ¬ truthy school.type then false
        else
          let schoolType := jsToLower (school.type.getD "")
          if sector = SectorFilter.pub then
            jsIncludes schoolType "public"
          else if sector = SectorFilter.priv then
            jsIncludes schoolType "privé" || jsIncludes schoolType "private"
          else true)
    else filtered1
  filtered2

/-- Scheme A counterexample row: official-dataset fields plus a `uai`. -/
def c2Row : CSVRow :=
  [("appellation_officielle", "École A"), ("position", "1,2"), ("uai", "0590248Z")]

/-- The institution the code produces for `c2Row` at ordinal 0. -/
def c2School : School JsNum :=
  { id := 0, name := some "École A", uai := none, address := none,
    latitude := JsNum.fin 1, longitude := JsNum.fin 2,
    type := some "Établissement", distance := none }

/-- Scheme B counterexample row: generic fields plus a `uai`. -/
def c3Row : CSVRow :=
  [("nom", "N"), ("lat", "1"), ("lon", "2"), ("uai", "X")]

/-- The institution the code produces for `c3Row` at ordinal 0. -/
def c3School : School JsNum :=
  { id := 0, name := none, uai := some "X", address := none,
    latitude := JsNum.fin 1, longitude := JsNum.fin 2,
    type := none, distance := none }

/-- A `JsNum` whose `isNaN` test is false is not `nan`. -/
theorem ne_nan_of_isNaN_eq_false {x : JsNum} (h : x.isNaN = false) : x ≠ JsNum.nan := by
  intro he
  subst he
  simp [JsNum.isNaN] at h

/-- Whatever branch produced it, a normalised school's `id` is the input
index the normaliser was called with. -/
theorem rowToSchool_id {row : CSVRow} {i : Nat} {s : School JsNum}
    (h : rowToSchool row i = some s) : s.id = i := by
  simp only [rowToSchool] at h
  repeat' split at h
  any_goals exact Option.noConfusion h
  all_goals injection h with h
  all_goals subst h
  all_goals rfl

/-- Whatever branch produced it, a normalised school's coordinates are not
NaN (both branches are guarded by `isNaN` checks). -/
theorem rowToSchool_not_nan {row : CSVRow} {i : Nat} {s : School JsNum}
    (h : rowToSchool row i = some s) :
    s.latitude ≠ JsNum.nan ∧ s.longitude ≠ JsNum.nan := by
  simp only [rowToSchool] at h
  repeat' split at h
  any_goals exact Option.noConfusion h
  all_goals injection h with h
  all_goals subst h
  all_goals refine ⟨ne_nan_of_isNaN_eq_false ?_, ne_nan_of_isNaN_eq_false ?_⟩ <;> simp_all

/-- Claim C1: the mapping `{nom: "École B", lat: "45.0", lon: "5.0"}` goes
through Scheme B and the coordinates are parsed as claimed, but the
institution's `name` is absent (the Scheme B object literal in
`csvRowsToSchools` never assigns `name`), not `"École B"` as the claim
states. -/
theorem schemeB_name_omitted_eval :
    csvRowsToSchools [[("nom", "École B"), ("lat", "45.0"), ("lon", "5.0")]] =
      [{ id := 0, name := none, uai := none, address := none,
         latitude := JsNum.fin 45, longitude := JsNum.fin 5, type := none, distance := none }] := by
  decide

/-- Claim C2 counterexample: a Scheme A mapping carrying
`uai = "0590248Z"` normalises to an institution whose external code is
`none`, not `some "0590248Z"` — the Scheme A object literal has no `uai`
property. -/
theorem schemeA_uai_counterexample :
    truthy (CSVRow.get c2Row "appellation_officielle") = true ∧
    truthy (CSVRow.get c2Row "position") = true ∧
    CSVRow.get c2Row "uai" = some "0590248Z" ∧
    (csvRowsToSchools [c2Row]).map School.uai = [none] ∧
    (csvRowsToSchools [c2Row]).map School.uai ≠ [some "0590248Z"] := by
  decide

/-- Claim C2 (amended): every mapping normalised under Scheme A yields an
institution with no external code, whether or not the mapping contains
`uai`. -/
theorem schemeA_no_externalCode {row : CSVRow} {i : Nat} {s : School JsNum}
    (hname : truthy (CSVRow.get row "appellation_officielle") = true)
    (hpos : truthy (CSVRow.get row "position") = true)
    (h : rowToSchool row i = some s) :
    s.uai = none := by
  simp only [rowToSchool, hname, hpos, not_true_eq_false, or_self, if_false] at h
  repeat' split at h
  any_goals exact Option.noConfusion h
  all_goals injection h with h
  all_goals subst h
  all_goals rfl

/-- Witness for `schemeA_no_externalCode` at the concrete row `c2Row`. -/
theorem schemeA_no_externalCode_witness :
    truthy (CSVRow.get c2Row "appellation_officielle") = true ∧
    truthy (CSVRow.get c2Row "position") = true ∧
    rowToSchool c2Row 0 = some c2School ∧
    c2School.uai = none :=
  ⟨by decide, by decide, by decide,
    @schemeA_no_externalCode c2Row 0 c2School (by decide) (by decide) (by decide)⟩

/-- Claim C3 counterexample: a Scheme B mapping carrying `uai = "X"`
normalises to an institution whose external code is `some "X"` — the last
of the duplicated `uai` properties in the Scheme B object literal is
`row[uaiKey]`, so the value is carried, contradicting "no external code is
produced in Scheme B". -/
theorem schemeB_uai_counterexample :
    (csvRowsToSchools [c3Row]).map School.uai = [some "X"] ∧
    (csvRowsToSchools [c3Row]).map School.uai ≠ [none] := by
  decide

/-- Claim C3 (amended): a mapping normalised under Scheme B (the generic
fallback) yields an institution whose external code is exactly the
mapping's value under `uai` — `some` that value when the key is present,
`none` otherwise. -/
theorem schemeB_externalCode_carried {row : CSVRow} {i : Nat} {s : School JsNum}
    (hcond : truthy (CSVRow.get row "appellation_officielle") = false ∨
      truthy (CSVRow.get row "position") = false)
    (h : rowToSchool row i = some s) :
    s.uai = CSVRow.get row "uai" := by
  rcases hcond with hc | hc
  all_goals simp only [rowToSchool, hc, Bool.false_eq_true, not_false_eq_true,
    true_or, or_true, if_true] at h
  all_goals repeat' split at h
  any_goals exact Option.noConfusion h
  all_goals injection h with h
  all_goals subst h
  all_goals rfl

/-- Witness for `schemeB_externalCode_carried` at the concrete row `c3Row`. -/
theorem schemeB_externalCode_carried_witness :
    (truthy (CSVRow.get c3Row "appellation_officielle") = false ∨
      truthy (CSVRow.get c3Row "position") = false) ∧
    rowToSchool c3Row 0 = some c3School ∧
    c3School.uai = CSVRow.get c3Row "uai" :=
  ⟨Or.inl (by decide), by decide,
    @schemeB_externalCode_carried c3Row 0 c3School (Or.inl (by decide)) (by decide)⟩

/-- Two parsed rows of which the first is dropped by normalisation: the
empty mapping has no name key, the second is a valid Scheme B mapping. -/
def c4Rows : List CSVRow :=
  [[], [("nom", "X"), ("lat", "1"), ("lon", "2")]]

/-- Claim C4 counterexample: with a dropped first row, the only produced
institution has `id = 1`, so the ids are not the dense sequence
`0, 1, 2, …` over accepted rows — a dropped row consumes an id value. -/
theorem ids_not_dense_counterexample :
    (csvRowsToSchools c4Rows).map School.id = [1] ∧
    (csvRowsToSchools c4Rows).map School.id ≠ List.range (csvRowsToSchools c4Rows).length := by
  decide

open scoped List in
/-- The ids produced from rows enumerated from `k` form a sublist of
`k, k+1, …` over the input length: each id is the input index of its row. -/
theorem ids_sublist_aux (k : Nat) (rows : List CSVRow) :
    ((((List.enumFrom k rows).map (fun p => rowToSchool p.2 p.1)).reduceOption).map School.id)
      <+ List.range' k rows.length := by
  induction rows generalizing k with
  | nil => simp
  | cons r rs ih =>
    simp only [List.enumFrom_cons, List.map_cons, List.length_cons, List.range'_succ]
    cases h : rowToSchool r k with
    | none =>
      rw [List.reduceOption_cons_of_none]
      exact (ih (k + 1)).cons k
    | some s =>
      rw [List.reduceOption_cons_of_some, List.map_cons, rowToSchool_id h]
      exact (ih (k + 1)).cons₂ k

open scoped List in
/-- Claim C4 (amended): each institution's `id` is the 0-based index of
its source row in the parsed input sequence (ids are assigned before
invalid rows are dropped), so the ids are strictly increasing and unique
but not necessarily dense — a dropped row consumes its id value. -/
theorem csvRowsToSchools_ids_increasing (rows : List CSVRow) :
    ((csvRowsToSchools rows).map School.id <+ List.range rows.length) ∧
    ((csvRowsToSchools rows).map School.id).Pairwise (· < ·) := by
  have h1 : (csvRowsToSchools rows).map School.id <+ List.range rows.length := by
    rw [List.range_eq_range']
    simpa [csvRowsToSchools, List.enum] using ids_sublist_aux 0 rows
  exact ⟨h1, (List.pairwise_lt_range _).sublist h1⟩

/-- A Scheme B row whose latitude field reads `Infinity`. -/
def c5Row : CSVRow :=
  [("nom", "N"), ("lat", "Infinity"), ("lon", "5.0")]

/-- Claim C5 counterexample: the row with latitude `"Infinity"` is NOT
discarded — `parseFloat("Infinity")` is `Infinity` and the code only
rejects NaN (`isNaN`), not non-finite values, so an institution with an
infinite latitude is produced. -/
theorem infinity_not_discarded_counterexample :
    (csvRowsToSchools [c5Row]).map (fun s => s.latitude) = [JsNum.posInf] ∧
    csvRowsToSchools [c5Row] ≠ [] := by
  decide

/-- Claim C5 (amended): an institution is produced only if both coordinate
values parse to numbers other than NaN (rows whose coordinates parse to
NaN are discarded under both schemes); non-finite infinities are accepted. -/
theorem schools_coords_not_nan {rows : List CSVRow} {s : School JsNum}
    (h : s ∈ csvRowsToSchools rows) :
    s.latitude ≠ JsNum.nan ∧ s.longitude ≠ JsNum.nan := by
  simp only [csvRowsToSchools, List.reduceOption_mem_iff, List.mem_map] at h
  obtain ⟨p, _, hp⟩ := h
  exact rowToSchool_not_nan hp

/-- Witness for `schools_coords_not_nan` on a concrete parsed row. -/
theorem schools_coords_not_nan_witness :
    c3School ∈ csvRowsToSchools [c3Row] ∧
    (c3School.latitude ≠ JsNum.nan ∧ c3School.longitude ≠ JsNum.nan) :=
  ⟨by decide, @schools_coords_not_nan [c3Row] c3School (by decide)⟩

/-- The parser input for the whitespace counterexample: header line `a`,
data line `' x'` (apostrophe, space, `x`, apostrophe). -/
def c10Text : String :=
  String.mk ['a', '\n', squoteChar, ' ', 'x', squoteChar]

/-- Claim C10 counterexample: trimming happens before quote-stripping, so
the data cell `' x'` trims to itself and then loses its apostrophes,
leaving the value `" x"` with leading whitespace in the parsed mapping. -/
theorem value_whitespace_counterexample :
    parseCSV c10Text = [[("a", " x")]] ∧ (" x").data.head? = some ' ' := by
  decide

/-- No double-quote and no single-quote character survives `stripQuotes`. -/
theorem stripQuotes_no_quote (s : String) :
    dquoteChar ∉ (stripQuotes s).data ∧ squoteChar ∉ (stripQuotes s).data := by
  constructor <;> · intro hmem; simp [stripQuotes, List.mem_filter] at hmem

/-- Claim C10 (amended): every field value in every mapping returned by
the parser contains no double-quote and no single-quote character
(apostrophes interior to words are stripped too); surrounding whitespace
is trimmed before quote-stripping, so whitespace formerly guarded by quote
characters can survive at the ends of a value. -/
theorem parseCSV_values_no_quotes {text : String} {row : CSVRow} {kv : String × String}
    (hrow : row ∈ parseCSV text) (hkv : kv ∈ row) :
    dquoteChar ∉ kv.2.data ∧ squoteChar ∉ kv.2.data := by
  simp only [parseCSV] at hrow
  split at hrow
  · exact absurd hrow (List.not_mem_nil _)
  · simp only [List.mem_filterMap] at hrow
    obtain ⟨line, _, hsome⟩ := hrow
    split at hsome
    · injection hsome with hsome
      subst hsome
      have h2 := (List.of_mem_zip hkv).2
      simp only [List.mem_map] at h2
      obtain ⟨v, _, hv⟩ := h2
      rw [← hv]
      exact stripQuotes_no_quote (jsTrim v)
    · exact Option.noConfusion hsome

/-- Witness for `parseCSV_values_no_quotes` at a concrete parse. -/
theorem parseCSV_values_no_quotes_witness :
    ([("a", "x;y"), ("b", "z")] : CSVRow) ∈ parseCSV "a;b\n\"x;y\";z" ∧
    ("a", "x;y") ∈ ([("a", "x;y"), ("b", "z")] : CSVRow) ∧
    (dquoteChar ∉ "x;y".data ∧ squoteChar ∉ "x;y".data) :=
  ⟨by decide, by decide,
    @parseCSV_values_no_quotes "a;b\n\"x;y\";z" [("a", "x;y"), ("b", "z")] ("a", "x;y")
      (by decide) (by decide)⟩

/-- Claim C6: quote-aware parsing — with header `a;b` and the single data
row `"x;y";z`, the semicolon inside the double-quoted region is literal
text, so the parse yields exactly one mapping, `{a: "x;y", b: "z"}`. -/
theorem parseCSV_quoted_delimiter :
    parseCSV "a;b\n\"x;y\";z" = [[("a", "x;y"), ("b", "z")]] := by
  decide

/-- Claim C7: the distance function is symmetric — swapping the two
coordinate pairs leaves the computed (and rounded) distance unchanged. -/
theorem calculateDistance_symm (lat1 lon1 lat2 lon2 : ℝ) :
    calculateDistance lat1 lon1 lat2 lon2 = calculateDistance lat2 lon2 lat1 lon1 := by
  have hsin : ∀ x y : ℝ,
      Real.sin (toRadians (x - y) / 2) * Real.sin (toRadians (x - y) / 2) =
        Real.sin (toRadians (y - x) / 2) * Real.sin (toRadians (y - x) / 2) := by
    intro x y
    have hneg : toRadians (x - y) / 2 = -(toRadians (y - x) / 2) := by
      simp only [toRadians]
      ring
    rw [hneg, Real.sin_neg]
    ring
  have hprod : ∀ u v x y : ℝ,
      Real.cos u * Real.cos v * Real.sin (toRadians (x - y) / 2) *
          Real.sin (toRadians (x - y) / 2) =
        Real.cos v * Real.cos u * Real.sin (toRadians (y - x) / 2) *
          Real.sin (toRadians (y - x) / 2) := by
    intro u v x y
    have hneg : toRadians (x - y) / 2 = -(toRadians (y - x) / 2) := by
      simp only [toRadians]
      ring
    rw [hneg, Real.sin_neg]
    ring
  simp only [calculateDistance]
  rw [hsin lat2 lat1, hprod (toRadians lat1) (toRadians lat2) lon2 lon1]

/-- The comparator ordering of `App.tsx` is transitive. -/
theorem jsSortLE_trans : ∀ a b c : School ℝ, jsSortLE a b → jsSortLE b c → jsSortLE a c := by
  intro a b c hab hbc
  simp only [jsSortLE, decide_eq_true_eq] at hab hbc ⊢
  exact le_trans hab hbc

/-- The comparator ordering of `App.tsx` is total. -/
theorem jsSortLE_total : ∀ a b : School ℝ, jsSortLE a b || jsSortLE b a := by
  intro a b
  simp only [jsSortLE, Bool.or_eq_true, decide_eq_true_eq]
  exact le_total _ _

open scoped List in
/-- Claim C8: `calculateDistances` returns a permutation of the input in
which every element's `distance` is set via `calculateDistance` relative
to the reference position (the permutation is with the annotated input),
the result is sorted ascending by `distance` (through the comparator's
`|| 0` default), and elements with equal distance keep their original
relative order. -/
theorem calculateDistances_rank_spec (schoolList : List (School ℝ)) (position : Position) :
    (calculateDistances schoolList position).Perm
        (schoolList.map (fun school =>
          { school with
            distance := some (calculateDistance position.latitude position.longitude
              school.latitude school.longitude) })) ∧
    (calculateDistances schoolList position).Pairwise (fun a b => dist0 a ≤ dist0 b) ∧
    (∀ a b : School ℝ, dist0 a = dist0 b →
      [a, b] <+ schoolList.map (fun school =>
          { school with
            distance := some (calculateDistance position.latitude position.longitude
              school.latitude school.longitude) }) →
      [a, b] <+ calculateDistances schoolList position) := by
  simp only [calculateDistances]
  refine ⟨List.mergeSort_perm _ jsSortLE, ?_, ?_⟩
  · refine (List.sorted_mergeSort jsSortLE_trans jsSortLE_total _).imp ?_
    intro a b hab
    simpa [jsSortLE, decide_eq_true_eq] using hab
  · intro a b hd hsub
    exact List.pair_sublist_mergeSort jsSortLE_trans jsSortLE_total
      (by simp [jsSortLE, hd.le]) hsub

open scoped List in
/-- Claim C9: for every institution list and every level/sector filter
setting, `applyFilters` only removes elements — the result is a sublist of
the input, so each surviving institution is the unchanged input element
(in particular its `distance`) and relative order is preserved. -/
theorem applyFilters_sublist (schoolList : List (School ℝ)) (sector : SectorFilter)
    (level : LevelFilter) :
    applyFilters schoolList sector level <+ schoolList := by
  have hstep : ∀ (l : List (School ℝ)) (c : Bool) (p : School ℝ → Bool),
      (if c = true then List.filter p l else l) <+ l := by
    intro l c p
    cases c
    · simp
    · simp
  simp only [applyFilters]
  exact (hstep _ _ _).trans (hstep _ _ _)
